import Mathlib

/-!
Verification of the `noop-allocator` crate: a no-op allocation strategy
(`NoopAllocator` in `src/lib.rs`) together with factory functions producing
owning handles over borrowed storage (`src/owning_ref.rs`,
`src/owning_slice.rs`).

The embedding is shallow: Rust `Layout` values are modelled by their size and
the base-2 logarithm of their alignment (Rust's `Layout` guarantees the
alignment is a power of two); pointers (`NonNull<u8>`) by their address as a
natural number; `NonNull<[u8]>` return values by an address/length pair;
fallible operations return `Except AllocError`.
-/

/-- Rust's `core::alloc::AllocError`: the failure value of allocator
operations. -/
inductive AllocError : Type
  | allocError
deriving DecidableEq, Repr

/-- A `NonNull<[u8]>` result of an allocator operation: base address and
length in bytes. -/
structure MemBlock : Type where
  addr : Nat
  len : Nat
deriving DecidableEq, Repr

/-- Rust's `core::alloc::Layout`: a size in bytes and an alignment.  `Layout`
guarantees the alignment is a (nonzero) power of two, so we store its base-2
logarithm. -/
structure Layout : Type where
  size : Nat
  alignLog2 : Nat
deriving DecidableEq, Repr

/-- `Layout::align()`. -/
def Layout.align (l : Layout) : Nat := 2 ^ l.alignLog2

/-- `Layout::dangling()`: a well-aligned pointer with address equal to the
alignment (`core` implements it as `NonNull::new(align as *mut u8)` via
`without_provenance`). -/
def Layout.dangling (l : Layout) : Nat := l.align

/-- A byte memory, mapping addresses to byte values.  Used to state that
operations do not write through their pointer argument. -/
def Mem : Type := Nat → Nat

/-- `ptr.write_bytes(val, count)`: store `val` at each of the `count` bytes
starting at `addr`. -/
def Mem.writeBytes (mem : Mem) (addr val : Nat) : Nat → Mem
  | 0 => mem
  | count + 1 =>
    Mem.writeBytes (fun i => if i = addr then val else mem i) (addr + 1) val count

namespace NoopAllocator

/-- `NoopAllocator::allocate` (src/lib.rs:49-55): succeed with a zero-length
dangling block iff the requested size is zero. -/
def allocate (layout : Layout) : Except AllocError MemBlock :=
  if layout.size = 0 then
    .ok ⟨layout.dangling, 0⟩
  else
    .error .allocError

/-- `NoopAllocator::deallocate` (src/lib.rs:57-59): intentionally empty.  The
explicit memory argument is returned unchanged: the body performs no write
(and, being independent of `mem`'s contents, no read). -/
def deallocate (mem : Mem) (_ptr : Nat) (_layout : Layout) : Mem × Unit :=
  (mem, ())

/-- `NoopAllocator::grow_zeroed` (src/lib.rs:70-89), release build (the
`debug_assert!` compiles away): fail if the new size exceeds the old or the
pointer's address is not aligned for the new layout (checked in the source as
`ptr as usize & (new_layout.align() - 1) != 0`); otherwise return the same
address with the new layout's size as length. -/
def grow_zeroed (ptr : Nat) (old_layout new_layout : Layout) :
    Except AllocError MemBlock :=
  if new_layout.size > old_layout.size
      || decide (ptr &&& (new_layout.align - 1) ≠ 0) then
    .error .allocError
  else
    .ok ⟨ptr, new_layout.size⟩

/-- `NoopAllocator::grow` (src/lib.rs:61-68): delegates to `grow_zeroed`. -/
def grow (ptr : Nat) (old_layout new_layout : Layout) :
    Except AllocError MemBlock :=
  grow_zeroed ptr old_layout new_layout

/-- `NoopAllocator::shrink` (src/lib.rs:91-111), release build: same
size-and-alignment test and same result expression as `grow_zeroed`. -/
def shrink (ptr : Nat) (old_layout new_layout : Layout) :
    Except AllocError MemBlock :=
  if new_layout.size > old_layout.size
      || decide (ptr &&& (new_layout.align - 1) ≠ 0) then
    .error .allocError
  else
    .ok ⟨ptr, new_layout.size⟩

/-- `NoopAllocator::grow_zeroed`, debug build: the
`debug_assert!(new_layout.size() >= old_layout.size())` at src/lib.rs:76-79
panics (modelled as `none`) when the caller contract is violated; otherwise
the release body runs. -/
def grow_zeroed_debug (ptr : Nat) (old_layout new_layout : Layout) :
    Option (Except AllocError MemBlock) :=
  if old_layout.size ≤ new_layout.size then
    some (grow_zeroed ptr old_layout new_layout)
  else
    none

/-- `NoopAllocator::grow`, debug build: delegates to `grow_zeroed`, whose
debug assertion applies. -/
def grow_debug (ptr : Nat) (old_layout new_layout : Layout) :
    Option (Except AllocError MemBlock) :=
  grow_zeroed_debug ptr old_layout new_layout

/-- `NoopAllocator::shrink`, debug build: the
`debug_assert!(new_layout.size() <= old_layout.size())` at src/lib.rs:97-100
panics (modelled as `none`) when violated; otherwise the release body runs. -/
def shrink_debug (ptr : Nat) (old_layout new_layout : Layout) :
    Option (Except AllocError MemBlock) :=
  if new_layout.size ≤ old_layout.size then
    some (shrink ptr old_layout new_layout)
  else
    none

/-- The default provided method `Allocator::allocate_zeroed` of the
`Allocator` trait, which `NoopAllocator` does not override (src/lib.rs:48-55):
it calls `allocate` and, on success, zero-fills the returned block
(`ptr.as_ptr().write_bytes(0, ptr.len())`). -/
def allocate_zeroed (mem : Mem) (layout : Layout) :
    Except AllocError (Mem × MemBlock) :=
  match allocate layout with
  | .error e => .error e
  | .ok b => .ok (mem.writeBytes b.addr 0 b.len, b)

end NoopAllocator

/-- The spec's notion of "`ptr` satisfies `new_layout`'s alignment": the
address is a multiple of the alignment. -/
def addrAligned (ptr : Nat) (l : Layout) : Prop := ptr % l.align = 0

instance (ptr : Nat) (l : Layout) : Decidable (addrAligned ptr l) := by
  unfold addrAligned; infer_instance

/-!
### Owning handles over borrowed storage

`src/owning_ref.rs` builds `OwningRef<'a, T> = Box<T, NoopAllocator<'a>>`;
`src/owning_slice.rs` builds `OwningSlice<'a, T> = Vec<T, NoopAllocator<'a>>`.
A borrowed `MaybeUninit<T>` slot is modelled as `Option α` (`some v` when the
cell holds the initialized value `v`, `none` when uninitialized), a borrowed
`[MaybeUninit<T>]` slice as `List (Option α)`, and the borrow's address as a
`Nat` passed alongside the contents.
-/

namespace owning_ref

/-- `Box<T, NoopAllocator<'a>>` (`OwningRef<'a, T>`, src/owning_ref.rs:14):
an owning reference borrowing a memory location but owning the value in it.
`deref` is the value read through the box's pointer. -/
structure OwningRef (α : Type) : Type where
  deref : α
deriving DecidableEq, Repr

/-- `MaybeUninit::write`: overwrite the slot with `value`, making it
initialized regardless of its previous contents. -/
def MaybeUninit.write {α : Type} (_slot : Option α) (value : α) : Option α :=
  some value

/-- `owning_ref::from_maybeuninit_write` (src/owning_ref.rs:50-58): write
`value` into the slot, then wrap the slot's address as a box
(`Box::from_raw_in`).  Returns the slot's new contents together with the
handle, whose pointee is what was just written. -/
def from_maybeuninit_write {α : Type} (slot : Option α) (value : α) :
    Option α × OwningRef α :=
  (MaybeUninit.write slot value, ⟨value⟩)

/-- Modelled from the spec: dropping the handle (`Box`'s drop glue, which is
not part of this repository) runs the pointee's destructor once, then calls
the strategy's `deallocate`.  Returns the resulting memory and the number of
destructor runs. -/
def OwningRef.drop {α : Type} (_r : OwningRef α) (mem : Mem) (ptr : Nat)
    (layout : Layout) : Mem × Nat :=
  ((NoopAllocator.deallocate mem ptr layout).1, 1)

end owning_ref

namespace owning_slice

/-- `Vec<T, NoopAllocator<'a>>` (`OwningSlice<'a, T>`, src/owning_slice.rs:88)
by its raw parts: the buffer address (`ptr`), the cell contents behind it
(`buf`), the current length and the capacity. -/
structure OwningSlice (α : Type) : Type where
  ptr : Nat
  buf : List (Option α)
  len : Nat
  cap : Nat
deriving DecidableEq, Repr

/-- `owning_slice::from_maybeuninit` (src/owning_slice.rs:112-119):
`Vec::from_raw_parts_in(slot, 1, 1, NoopAllocator)`. -/
def from_maybeuninit {α : Type} (ptr : Nat) (slot : Option α) :
    OwningSlice α :=
  ⟨ptr, [slot], 1, 1⟩

/-- `owning_slice::from_maybeuninit_slice` (src/owning_slice.rs:143-154),
release build (the `debug_assert!` compiles away):
`Vec::from_raw_parts_in(slot, length, slot.len(), NoopAllocator)`. -/
def from_maybeuninit_slice {α : Type} (ptr : Nat) (slot : List (Option α))
    (length : Nat) : OwningSlice α :=
  ⟨ptr, slot, length, slot.length⟩

/-- `owning_slice::from_maybeuninit_slice`, debug build: the
`debug_assert!(length <= slot.len())` at src/owning_slice.rs:147 panics
(modelled as `none`) when violated. -/
def from_maybeuninit_slice_debug {α : Type} (ptr : Nat)
    (slot : List (Option α)) (length : Nat) : Option (OwningSlice α) :=
  if length ≤ slot.length then
    some (from_maybeuninit_slice ptr slot length)
  else
    none

/-- `owning_slice::empty_from_maybeuninit` (src/owning_slice.rs:174-183):
`Vec::from_raw_parts_in(slot, 0, 1, NoopAllocator)`. -/
def empty_from_maybeuninit {α : Type} (ptr : Nat) (slot : Option α) :
    OwningSlice α :=
  ⟨ptr, [slot], 0, 1⟩

/-- `owning_slice::empty_from_maybeuninit_slice` (src/owning_slice.rs:203-212):
`Vec::from_raw_parts_in(slot, 0, slot.len(), NoopAllocator)`. -/
def empty_from_maybeuninit_slice {α : Type} (ptr : Nat)
    (slot : List (Option α)) : OwningSlice α :=
  ⟨ptr, slot, 0, slot.length⟩

/-- The old/new layout pair of the allocation request that the growable
handle's growth path makes, for element size `elemSize` and element alignment
`2 ^ alignLog2`: the old layout covers the current capacity, the new one an
amortized strictly larger capacity (doubling, at least one element more). -/
def OwningSlice.growRequest {α : Type} (elemSize alignLog2 : Nat)
    (vec : OwningSlice α) : Layout × Layout :=
  (⟨vec.cap * elemSize, alignLog2⟩,
   ⟨max (2 * vec.cap) (vec.cap + 1) * elemSize, alignLog2⟩)

/-- Modelled from the spec: `Vec::push` of the generic growable container,
which is not part of this repository.  An in-bounds push (`len < cap`) writes
the element in place and increments the length.  A push at capacity requests
more memory from the allocation strategy — via `allocate` when the current
capacity is 0 (there is no existing allocation to grow), via `grow`
otherwise — and fails with the strategy's error when the request is
refused. -/
def OwningSlice.push {α : Type} (elemSize alignLog2 : Nat) (v : α)
    (vec : OwningSlice α) : Except AllocError (OwningSlice α) :=
  if vec.len < vec.cap then
    .ok ⟨vec.ptr, vec.buf.set vec.len (some v), vec.len + 1, vec.cap⟩
  else
    match (if vec.cap = 0 then
        NoopAllocator.allocate (OwningSlice.growRequest elemSize alignLog2 vec).2
      else
        NoopAllocator.grow vec.ptr
          (OwningSlice.growRequest elemSize alignLog2 vec).1
          (OwningSlice.growRequest elemSize alignLog2 vec).2) with
    | .error e => .error e
    | .ok b =>
      .ok ⟨b.addr,
        (vec.buf ++
            List.replicate (max (2 * vec.cap) (vec.cap + 1) - vec.cap) none).set
          vec.len (some v),
        vec.len + 1,
        max (2 * vec.cap) (vec.cap + 1)⟩

/-- Push each element of `vs` in order, stopping at the first failure. -/
def OwningSlice.pushAll {α : Type} (elemSize alignLog2 : Nat) (vs : List α)
    (vec : OwningSlice α) : Except AllocError (OwningSlice α) :=
  match vs with
  | [] => .ok vec
  | v :: rest =>
    match OwningSlice.push elemSize alignLog2 v vec with
    | .error e => .error e
    | .ok vec' => OwningSlice.pushAll elemSize alignLog2 rest vec'

end owning_slice

/-!
### Shared lemmas
-/

/-- The source's alignment test `ptr & (align - 1) != 0` agrees with address
divisibility because `Layout` alignments are powers of two. -/
theorem align_mask_eq_mod (ptr : Nat) (l : Layout) :
    ptr &&& (l.align - 1) = ptr % l.align := by
  simp [Layout.align, Nat.and_pow_two_sub_one_eq_mod ptr l.alignLog2]

/-- When the new size fits and the address is aligned for the new layout, the
shared size-and-alignment test passes: `grow`, `grow_zeroed` and `shrink` all
return the original address with the new layout's size. -/
theorem noop_resize_ok (ptr : Nat) (old_layout new_layout : Layout)
    (hsize : new_layout.size ≤ old_layout.size)
    (halign : addrAligned ptr new_layout) :
    NoopAllocator.grow ptr old_layout new_layout = .ok ⟨ptr, new_layout.size⟩ ∧
    NoopAllocator.grow_zeroed ptr old_layout new_layout = .ok ⟨ptr, new_layout.size⟩ ∧
    NoopAllocator.shrink ptr old_layout new_layout = .ok ⟨ptr, new_layout.size⟩ := by
  have halign' : ptr &&& (new_layout.align - 1) = 0 := by
    rw [align_mask_eq_mod]; exact halign
  refine ⟨?_, ?_, ?_⟩ <;>
    simp [NoopAllocator.grow, NoopAllocator.grow_zeroed, NoopAllocator.shrink,
      Nat.not_lt.mpr hsize, halign']

/-- When the new size exceeds the old, or the address is misaligned for the
new layout, the shared size-and-alignment test fails: `grow`, `grow_zeroed`
and `shrink` all return `AllocError`. -/
theorem noop_resize_err (ptr : Nat) (old_layout new_layout : Layout)
    (hfail : old_layout.size < new_layout.size ∨ ¬ addrAligned ptr new_layout) :
    NoopAllocator.grow ptr old_layout new_layout = .error .allocError ∧
    NoopAllocator.grow_zeroed ptr old_layout new_layout = .error .allocError ∧
    NoopAllocator.shrink ptr old_layout new_layout = .error .allocError := by
  have hcond :
      old_layout.size < new_layout.size ∨ ptr &&& (new_layout.align - 1) ≠ 0 := by
    rcases hfail with h | h
    · exact Or.inl h
    · exact Or.inr (by rw [align_mask_eq_mod]; exact h)
  rcases hcond with h | h <;>
    refine ⟨?_, ?_, ?_⟩ <;>
      simp [NoopAllocator.grow, NoopAllocator.grow_zeroed,
        NoopAllocator.shrink, h]

namespace owning_slice

/-- An in-bounds push writes in place: same address, same capacity, the
element stored at index `len`, and the length incremented. -/
theorem OwningSlice.push_lt {α : Type} (elemSize alignLog2 : Nat) (v : α)
    (vec : OwningSlice α) (hlt : vec.len < vec.cap) :
    OwningSlice.push elemSize alignLog2 v vec =
      .ok ⟨vec.ptr, vec.buf.set vec.len (some v), vec.len + 1, vec.cap⟩ := by
  unfold OwningSlice.push
  rw [if_pos hlt]

/-- The growth request always asks for a strictly larger size (the new
capacity strictly exceeds the old and elements have nonzero size). -/
theorem OwningSlice.growRequest_size_lt {α : Type} (elemSize alignLog2 : Nat)
    (vec : OwningSlice α) (hs : 0 < elemSize) :
    (OwningSlice.growRequest elemSize alignLog2 vec).1.size <
      (OwningSlice.growRequest elemSize alignLog2 vec).2.size := by
  have hcap : vec.cap < max (2 * vec.cap) (vec.cap + 1) :=
    Nat.lt_of_lt_of_le (Nat.lt_succ_self _) (Nat.le_max_right _ _)
  simpa [OwningSlice.growRequest] using
    Nat.mul_lt_mul_of_lt_of_le hcap (Nat.le_refl elemSize) hs

/-- The strategy refuses every growth request of the growable handle: the
requested new size strictly exceeds the old. -/
theorem OwningSlice.grow_refused {α : Type} (elemSize alignLog2 ptr : Nat)
    (vec : OwningSlice α) (hs : 0 < elemSize) :
    NoopAllocator.grow ptr (OwningSlice.growRequest elemSize alignLog2 vec).1
      (OwningSlice.growRequest elemSize alignLog2 vec).2 = .error .allocError :=
  (noop_resize_err ptr _ _
    (Or.inl (OwningSlice.growRequest_size_lt elemSize alignLog2 vec hs))).1

/-- A push at capacity fails with the strategy's `AllocError`: the zero
capacity case asks `allocate` for a nonzero size, every other case asks
`grow` for a strictly larger size. -/
theorem OwningSlice.push_at_cap {α : Type} (elemSize alignLog2 : Nat) (v : α)
    (vec : OwningSlice α) (hcap : vec.cap ≤ vec.len) (hs : 0 < elemSize) :
    OwningSlice.push elemSize alignLog2 v vec = .error .allocError := by
  unfold OwningSlice.push
  rw [if_neg (Nat.not_lt.mpr hcap)]
  by_cases h0 : vec.cap = 0
  · rw [if_pos h0]
    have halloc :
        NoopAllocator.allocate
          (OwningSlice.growRequest elemSize alignLog2 vec).2 = .error .allocError := by
      simp [NoopAllocator.allocate, OwningSlice.growRequest, h0,
        Nat.pos_iff_ne_zero.mp hs]
    rw [halloc]
  · rw [if_neg h0]
    rw [OwningSlice.grow_refused elemSize alignLog2 vec.ptr vec hs]

/-- Pushing a list of elements that fits within the spare capacity succeeds
with the same address, the same capacity, and the length increased by the
number of elements pushed. -/
theorem OwningSlice.pushAll_in_bounds {α : Type} (elemSize alignLog2 : Nat)
    (vs : List α) (vec : OwningSlice α)
    (h : vec.len + vs.length ≤ vec.cap) :
    ∃ vec', OwningSlice.pushAll elemSize alignLog2 vs vec = .ok vec' ∧
      vec'.ptr = vec.ptr ∧ vec'.len = vec.len + vs.length ∧
      vec'.cap = vec.cap := by
  induction vs generalizing vec with
  | nil => exact ⟨vec, rfl, rfl, by simp, rfl⟩
  | cons v rest ih =>
    have h' : vec.len + rest.length + 1 ≤ vec.cap := by
      simp only [List.length_cons] at h
      omega
    have hlt : vec.len < vec.cap := by omega
    obtain ⟨vec', h1, h2, h3, h4⟩ :=
      ih ⟨vec.ptr, vec.buf.set vec.len (some v), vec.len + 1, vec.cap⟩
        (by show vec.len + 1 + rest.length ≤ vec.cap; omega)
    have h3' : vec'.len = vec.len + 1 + rest.length := h3
    refine ⟨vec', ?_, ?_, ?_, ?_⟩
    · unfold OwningSlice.pushAll
      rw [OwningSlice.push_lt elemSize alignLog2 v vec hlt]
      exact h1
    · exact h2
    · simp only [List.length_cons]
      omega
    · exact h4

end owning_slice

/-!
### Claim theorems
-/

/-- **C2**: `allocate` succeeds exactly on zero-size layouts.  For every
layout with `size = 0` it returns the zero-length dangling block, whose
address (`align`) satisfies the requested alignment; for every layout with
`size > 0` it fails with `AllocError`. -/
theorem allocate_spec (layout : Layout) :
    (layout.size = 0 →
      NoopAllocator.allocate layout = .ok ⟨layout.dangling, 0⟩ ∧
        addrAligned layout.dangling layout) ∧
    (layout.size ≠ 0 →
      NoopAllocator.allocate layout = .error .allocError) := by
  constructor
  · intro h
    refine ⟨by simp [NoopAllocator.allocate, h], ?_⟩
    simp [addrAligned, Layout.dangling]
  · intro h
    simp [NoopAllocator.allocate, h]

/-- Witness for C2: evaluate `allocate` at a zero-size layout (size 0,
align 8) and a nonzero-size layout (size 5, align 1). -/
theorem allocate_spec_witness :
    (NoopAllocator.allocate ⟨0, 3⟩ = .ok ⟨8, 0⟩ ∧ addrAligned 8 ⟨0, 3⟩) ∧
      NoopAllocator.allocate ⟨5, 0⟩ = .error .allocError := by
  refine ⟨?_, ?_⟩
  · have h := (allocate_spec ⟨0, 3⟩).1 rfl
    exact ⟨h.1, h.2⟩
  · exact (allocate_spec ⟨5, 0⟩).2 (by decide)

/-- **C1**: for every pointer and pair of layouts, `grow`, `grow_zeroed` and
`shrink` succeed — returning the same address with length `new_layout.size` —
exactly when `new_layout.size ≤ old_layout.size` and the pointer's address
satisfies `new_layout`'s alignment; on every other input they fail with
`AllocError`. -/
theorem resize_spec (ptr : Nat) (old_layout new_layout : Layout) :
    (new_layout.size ≤ old_layout.size ∧ addrAligned ptr new_layout →
      NoopAllocator.grow ptr old_layout new_layout = .ok ⟨ptr, new_layout.size⟩ ∧
      NoopAllocator.grow_zeroed ptr old_layout new_layout = .ok ⟨ptr, new_layout.size⟩ ∧
      NoopAllocator.shrink ptr old_layout new_layout = .ok ⟨ptr, new_layout.size⟩) ∧
    (old_layout.size < new_layout.size ∨ ¬ addrAligned ptr new_layout →
      NoopAllocator.grow ptr old_layout new_layout = .error .allocError ∧
      NoopAllocator.grow_zeroed ptr old_layout new_layout = .error .allocError ∧
      NoopAllocator.shrink ptr old_layout new_layout = .error .allocError) :=
  ⟨fun h => noop_resize_ok ptr old_layout new_layout h.1 h.2,
   fun h => noop_resize_err ptr old_layout new_layout h⟩

/-- Witness for C1: `grow`/`grow_zeroed`/`shrink` at address 16 from a
16-byte layout to an 8-byte layout of alignment 8 succeed; growing to a
24-byte layout fails; an address misaligned for the new layout fails. -/
theorem resize_spec_witness :
    (NoopAllocator.grow 16 ⟨16, 0⟩ ⟨8, 3⟩ = .ok ⟨16, 8⟩ ∧
      NoopAllocator.grow_zeroed 16 ⟨16, 0⟩ ⟨8, 3⟩ = .ok ⟨16, 8⟩ ∧
      NoopAllocator.shrink 16 ⟨16, 0⟩ ⟨8, 3⟩ = .ok ⟨16, 8⟩) ∧
    (NoopAllocator.grow 16 ⟨16, 0⟩ ⟨24, 3⟩ = .error .allocError ∧
      NoopAllocator.grow_zeroed 16 ⟨16, 0⟩ ⟨24, 3⟩ = .error .allocError ∧
      NoopAllocator.shrink 16 ⟨16, 0⟩ ⟨24, 3⟩ = .error .allocError) ∧
    (NoopAllocator.grow 12 ⟨16, 0⟩ ⟨8, 3⟩ = .error .allocError ∧
      NoopAllocator.grow_zeroed 12 ⟨16, 0⟩ ⟨8, 3⟩ = .error .allocError ∧
      NoopAllocator.shrink 12 ⟨16, 0⟩ ⟨8, 3⟩ = .error .allocError) :=
  ⟨(resize_spec 16 ⟨16, 0⟩ ⟨8, 3⟩).1 ⟨by decide, by decide⟩,
   (resize_spec 16 ⟨16, 0⟩ ⟨24, 3⟩).2 (Or.inl (by decide)),
   (resize_spec 12 ⟨16, 0⟩ ⟨8, 3⟩).2 (Or.inr (by decide))⟩

/-- **C4**: for every memory state, pointer and layout — including pointers
never produced by `allocate` and layouts matching no prior allocation —
`deallocate` returns `()` without failing and leaves the memory exactly as it
was: it performs no read or write through the pointer and no other state
change. -/
theorem deallocate_noop (mem : Mem) (ptr : Nat) (layout : Layout) :
    NoopAllocator.deallocate mem ptr layout = (mem, ()) := rfl

/-- **C9**: disregarding the debug-only assertions, `grow`, `grow_zeroed` and
`shrink` are extensionally equal: on every input the three return identical
results, realizing one shared size-and-alignment test. -/
theorem resize_ops_equal (ptr : Nat) (old_layout new_layout : Layout) :
    NoopAllocator.grow ptr old_layout new_layout =
        NoopAllocator.grow_zeroed ptr old_layout new_layout ∧
      NoopAllocator.grow_zeroed ptr old_layout new_layout =
        NoopAllocator.shrink ptr old_layout new_layout :=
  ⟨rfl, rfl⟩

/-- **C5**: the grow/shrink size-direction caller contract is checked only in
debug builds: a `grow`/`grow_zeroed` call with `new_layout.size <
old_layout.size` trips the debug assertion, and a `shrink` call with
`new_layout.size > old_layout.size` trips its debug assertion, while in
release builds the same calls fall through to the shared size/alignment
check — in particular release-mode `grow` with a smaller new layout and an
aligned pointer succeeds rather than asserting. -/
theorem debug_assertions_spec (ptr : Nat) (old_layout new_layout : Layout) :
    (new_layout.size < old_layout.size →
      NoopAllocator.grow_debug ptr old_layout new_layout = none ∧
      NoopAllocator.grow_zeroed_debug ptr old_layout new_layout = none) ∧
    (old_layout.size < new_layout.size →
      NoopAllocator.shrink_debug ptr old_layout new_layout = none) ∧
    (new_layout.size < old_layout.size ∧ addrAligned ptr new_layout →
      NoopAllocator.grow ptr old_layout new_layout =
        .ok ⟨ptr, new_layout.size⟩) := by
  refine ⟨?_, ?_, ?_⟩
  · intro h
    constructor <;>
      simp [NoopAllocator.grow_debug, NoopAllocator.grow_zeroed_debug,
        Nat.not_le.mpr h]
  · intro h
    simp [NoopAllocator.shrink_debug, Nat.not_le.mpr h]
  · rintro ⟨hsize, halign⟩
    exact (noop_resize_ok ptr old_layout new_layout (Nat.le_of_lt hsize) halign).1

/-- Witness for C5: in debug builds `grow`/`grow_zeroed` from 16 bytes down
to 8 assert and `shrink` from 8 up to 16 asserts; in release, `grow` at the
aligned address 16 from 16 bytes down to 8 succeeds. -/
theorem debug_assertions_spec_witness :
    (NoopAllocator.grow_debug 16 ⟨16, 0⟩ ⟨8, 3⟩ = none ∧
      NoopAllocator.grow_zeroed_debug 16 ⟨16, 0⟩ ⟨8, 3⟩ = none) ∧
    NoopAllocator.shrink_debug 16 ⟨8, 3⟩ ⟨16, 0⟩ = none ∧
    NoopAllocator.grow 16 ⟨16, 0⟩ ⟨8, 3⟩ = .ok ⟨16, 8⟩ :=
  ⟨(debug_assertions_spec 16 ⟨16, 0⟩ ⟨8, 3⟩).1 (by decide),
   (debug_assertions_spec 16 ⟨8, 3⟩ ⟨16, 0⟩).2.1 (by decide),
   (debug_assertions_spec 16 ⟨16, 0⟩ ⟨8, 3⟩).2.2 ⟨by decide, by decide⟩⟩

/-- **C8**: for every memory state and layout, `allocate_zeroed` (the
un-overridden trait default) returns exactly `allocate`'s result, and the
memory is unchanged: the only successful case returns a zero-length block, so
its zero-fill writes nothing. -/
theorem allocate_zeroed_eq_allocate (mem : Mem) (layout : Layout) :
    NoopAllocator.allocate_zeroed mem layout =
      Except.map (fun b => (mem, b)) (NoopAllocator.allocate layout) := by
  by_cases h : layout.size = 0 <;>
    simp [NoopAllocator.allocate_zeroed, NoopAllocator.allocate, h,
      Except.map, Mem.writeBytes]

/-- **C7**: for every value and every borrowed slot — with no precondition on
the slot's prior contents — `from_maybeuninit_write` writes the value into
the slot, the resulting handle reads back exactly that value, and dropping
the handle runs the value's destructor exactly once while the no-op
`deallocate` leaves memory untouched. -/
theorem write_read_drop_spec {α : Type} (slot : Option α) (v : α) (mem : Mem)
    (ptr : Nat) (layout : Layout) :
    (owning_ref.from_maybeuninit_write slot v).1 = some v ∧
    (owning_ref.from_maybeuninit_write slot v).2.deref = v ∧
    owning_ref.OwningRef.drop (owning_ref.from_maybeuninit_write slot v).2
      mem ptr layout = (mem, 1) :=
  ⟨rfl, rfl, rfl⟩

namespace owning_slice

/-- **C6**: every growable-handle factory yields capacity equal to the
borrowed slot's element count and the documented length: `from_maybeuninit`
gives length 1 and capacity 1; `from_maybeuninit_slice` gives the supplied
length and capacity equal to the slice's element count, its `length ≤
capacity` requirement checked only in debug builds; the empty factories give
length 0 with capacity 1 and the slice's element count respectively. -/
theorem factory_len_cap_spec {α : Type} (ptr length : Nat) (slot1 : Option α)
    (slotL : List (Option α)) :
    (from_maybeuninit ptr slot1).len = 1 ∧
    (from_maybeuninit ptr slot1).cap = 1 ∧
    (from_maybeuninit_slice ptr slotL length).len = length ∧
    (from_maybeuninit_slice ptr slotL length).cap = slotL.length ∧
    (length ≤ slotL.length →
      from_maybeuninit_slice_debug ptr slotL length =
        some (from_maybeuninit_slice ptr slotL length)) ∧
    (slotL.length < length →
      from_maybeuninit_slice_debug ptr slotL length = none) ∧
    (empty_from_maybeuninit ptr slot1).len = 0 ∧
    (empty_from_maybeuninit ptr slot1).cap = 1 ∧
    (empty_from_maybeuninit_slice ptr slotL).len = 0 ∧
    (empty_from_maybeuninit_slice ptr slotL).cap = slotL.length := by
  refine ⟨rfl, rfl, rfl, rfl, ?_, ?_, rfl, rfl, rfl, rfl⟩
  · intro h
    simp [from_maybeuninit_slice_debug, h]
  · intro h
    simp [from_maybeuninit_slice_debug, Nat.not_le.mpr h]

/-- Witness for C6: evaluate the factories over a three-element slice with
length 1 (debug check passes) and length 4 (debug check trips), and over a
single-element slot. -/
theorem factory_len_cap_spec_witness :
    (from_maybeuninit 8 (some 5) : OwningSlice Nat).len = 1 ∧
    (from_maybeuninit 8 (some 5) : OwningSlice Nat).cap = 1 ∧
    (from_maybeuninit_slice 8 [some 1, none, none] 1 : OwningSlice Nat).len = 1 ∧
    (from_maybeuninit_slice 8 [some 1, none, none] 1 : OwningSlice Nat).cap = 3 ∧
    from_maybeuninit_slice_debug 8 [some 1, none, none] 1 =
      some (from_maybeuninit_slice (α := Nat) 8 [some 1, none, none] 1) ∧
    from_maybeuninit_slice_debug (α := Nat) 8 [some 1, none, none] 4 = none ∧
    (empty_from_maybeuninit 8 (some 5) : OwningSlice Nat).len = 0 ∧
    (empty_from_maybeuninit 8 (some 5) : OwningSlice Nat).cap = 1 ∧
    (empty_from_maybeuninit_slice 8 [some 1, none, none] : OwningSlice Nat).len = 0 ∧
    (empty_from_maybeuninit_slice 8 [some 1, none, none] : OwningSlice Nat).cap = 3 := by
  have h1 := factory_len_cap_spec (α := Nat) 8 1 (some 5) [some 1, none, none]
  have h4 := factory_len_cap_spec (α := Nat) 8 4 (some 5) [some 1, none, none]
  exact ⟨h1.1, h1.2.1, h1.2.2.1, h1.2.2.2.1, h1.2.2.2.2.1 (by decide),
    h4.2.2.2.2.2.1 (by decide), h1.2.2.2.2.2.2.1, h1.2.2.2.2.2.2.2.1,
    h1.2.2.2.2.2.2.2.2.1, h1.2.2.2.2.2.2.2.2.2⟩

/-- **C3**: a handle built by the empty-slice factory (length 0, capacity
`C = slot.length`) accepts `C` pushes in place — same address, same
capacity — and the `(C+1)`-th push fails with the strategy's `AllocError`;
the handle's growth request has `new_layout.size > old_layout.size` and the
strategy's `grow` refuses it. -/
theorem empty_slice_pushes_spec {α : Type} (ptr elemSize alignLog2 : Nat)
    (slot : List (Option α)) (vs : List α) (hs : 0 < elemSize)
    (hlen : vs.length = slot.length) :
    ∃ h', OwningSlice.pushAll elemSize alignLog2 vs
        (empty_from_maybeuninit_slice ptr slot) = .ok h' ∧
      h'.ptr = ptr ∧ h'.len = slot.length ∧ h'.cap = slot.length ∧
      (∀ v, OwningSlice.push elemSize alignLog2 v h' = .error .allocError) ∧
      (OwningSlice.growRequest elemSize alignLog2 h').1.size <
        (OwningSlice.growRequest elemSize alignLog2 h').2.size ∧
      NoopAllocator.grow h'.ptr
        (OwningSlice.growRequest elemSize alignLog2 h').1
        (OwningSlice.growRequest elemSize alignLog2 h').2 = .error .allocError := by
  obtain ⟨h', h1, h2, h3, h4⟩ :=
    OwningSlice.pushAll_in_bounds elemSize alignLog2 vs
      (empty_from_maybeuninit_slice ptr slot)
      (by simp [empty_from_maybeuninit_slice, hlen])
  have hlen' : h'.len = slot.length := by
    simpa [empty_from_maybeuninit_slice, hlen] using h3
  have hcap' : h'.cap = slot.length := by
    simpa [empty_from_maybeuninit_slice] using h4
  refine ⟨h', h1, by simpa [empty_from_maybeuninit_slice] using h2,
    hlen', hcap', ?_, ?_, ?_⟩
  · intro v
    exact OwningSlice.push_at_cap elemSize alignLog2 v h' (by omega) hs
  · exact OwningSlice.growRequest_size_lt elemSize alignLog2 h' hs
  · exact OwningSlice.grow_refused elemSize alignLog2 h'.ptr h' hs

/-- Witness for C3: a two-element slot of 4-byte elements accepts two pushes
and refuses a third. -/
theorem empty_slice_pushes_spec_witness :
    ∃ h', OwningSlice.pushAll 4 2 [10, 20]
        (empty_from_maybeuninit_slice 8 ([none, none] : List (Option Nat))) =
          .ok h' ∧
      h'.ptr = 8 ∧ h'.len = 2 ∧ h'.cap = 2 ∧
      (∀ v, OwningSlice.push 4 2 v h' = .error .allocError) ∧
      (OwningSlice.growRequest 4 2 h').1.size <
        (OwningSlice.growRequest 4 2 h').2.size ∧
      NoopAllocator.grow h'.ptr (OwningSlice.growRequest 4 2 h').1
        (OwningSlice.growRequest 4 2 h').2 = .error .allocError :=
  empty_slice_pushes_spec 8 4 2 [none, none] [10, 20] (by decide) (by decide)

/-- **C10**: the empty-slice factory accepts an empty borrowed slice,
producing a handle with length 0 and capacity 0, and every push on it fails
with the strategy's `AllocError`. -/
theorem empty_slice_zero_cap_spec {α : Type} (ptr elemSize alignLog2 : Nat)
    (v : α) (hs : 0 < elemSize) :
    (empty_from_maybeuninit_slice ptr ([] : List (Option α))).len = 0 ∧
    (empty_from_maybeuninit_slice ptr ([] : List (Option α))).cap = 0 ∧
    OwningSlice.push elemSize alignLog2 v
      (empty_from_maybeuninit_slice ptr ([] : List (Option α))) =
        .error .allocError :=
  ⟨rfl, rfl,
   OwningSlice.push_at_cap elemSize alignLog2 v _ (Nat.le_refl 0) hs⟩

/-- Witness for C10: the zero-capacity handle over an empty `Nat` slice
refuses a push of `7` with 4-byte elements. -/
theorem empty_slice_zero_cap_spec_witness :
    (empty_from_maybeuninit_slice 8 ([] : List (Option Nat))).len = 0 ∧
    (empty_from_maybeuninit_slice 8 ([] : List (Option Nat))).cap = 0 ∧
    OwningSlice.push 4 2 7
      (empty_from_maybeuninit_slice 8 ([] : List (Option Nat))) =
        .error .allocError :=
  empty_slice_zero_cap_spec 8 4 2 7 (by decide)

end owning_slice
